import Mathlib

/-!
Shallow embedding of the BinLens GUI logic (configure_analysis.py,
live_view.py, BinLens_Dashboard.py) and verification of its
natural-language specification.

Widget state is modelled as explicit data: the entrypoint table is a list
of rows, the search-path list widget is a list of strings, the category
counters are association lists, and every handler becomes a pure function
from state to state.
-/

namespace BinLens

/-- A row of the entrypoint table as supplied to `set_entrypoints`:
the dict keys "address", "function", "file", "selected". -/
structure InputRow where
  address : String
  function : String
  file : String
  selected : Bool
  deriving Repr, DecidableEq

/-- A row of the entrypoint table model (`entry_model`): a checkable
first column plus the three text columns. -/
structure EntryRow where
  checked : Bool
  address : String
  function : String
  file : String
  deriving Repr, DecidableEq

/-- A selected entrypoint as returned by `get_selected_entrypoints`:
the dict keys "address", "function", "file". -/
structure SelRow where
  address : String
  function : String
  file : String
  deriving Repr, DecidableEq

/-- `ConfigureAnalysisWindow.set_entrypoints`: clear the model and append
one row per input dict, the check state taken from "selected". -/
def setEntrypoints (rows : List InputRow) : List EntryRow :=
  rows.map (fun r => { checked := r.selected, address := r.address,
                       function := r.function, file := r.file })

/-- `ConfigureAnalysisWindow.get_selected_entrypoints`: the rows whose
checkbox is checked, projected to address/function/file. -/
def getSelectedEntrypoints (model : List EntryRow) : List SelRow :=
  (model.filter (fun r => r.checked)).map
    (fun r => { address := r.address, function := r.function, file := r.file })

/-- `ConfigureAnalysisWindow.select_all_entrypoints`: set for every row the
check state to the given value. -/
def selectAllEntrypoints (checked : Bool) (model : List EntryRow) : List EntryRow :=
  model.map (fun r => { r with checked := checked })

/-- `ConfigureAnalysisWindow._on_header_clicked`: clicking the header of
column 0 toggles all checkboxes; any other column is ignored. -/
def onHeaderClicked (sec : Nat) (model : List EntryRow) : List EntryRow :=
  if sec ≠ 0 then model
  else selectAllEntrypoints (model.any fun r => r.checked != true) model

/-- The default entrypoint names of `select_default_entrypoints`. -/
def defaultNames : List String := ["_start", "main", "WinMain", "wWinMain", "DllMain"]

/-- Check the first row of the model (the fallback of
`select_default_entrypoints` when no default name matched). -/
def checkFirstRow : List EntryRow → List EntryRow
  | [] => []
  | r :: rest => { r with checked := true } :: rest

/-- `ConfigureAnalysisWindow.select_default_entrypoints`: check exactly the
rows whose function is a default name; if none matched and the table is
non-empty, check row 0. -/
def selectDefaultEntrypoints (model : List EntryRow) : List EntryRow :=
  if model.any (fun r => defaultNames.contains r.function) then
    model.map (fun r => { r with checked := defaultNames.contains r.function })
  else
    checkFirstRow
      (model.map (fun r => { r with checked := defaultNames.contains r.function }))

/-- The library extensions `LIB_EXTS` (dynamic + static libraries). -/
def LIB_EXTS : List String := [".so", ".dylib", ".dll", ".a", ".lib"]

/-- One step of the component loop of CPython `posixpath.normpath`:
empty and "." components are dropped, ".." pops a previous component
unless there is nothing to pop (relative path start, or a stack already
made of ".." entries). -/
def normpathStep (initialSlashes : Nat) (acc : List String) (comp : String) : List String :=
  if comp = "" ∨ comp = "." then acc
  else if comp ≠ ".." ∨ (initialSlashes = 0 ∧ acc = []) ∨ acc.getLast? = some ".." then
    acc ++ [comp]
  else if acc ≠ [] then acc.dropLast
  else acc

/-- `os.path.normpath` on POSIX (CPython `posixpath.normpath`): collapse
separators, drop "." components, resolve ".." where possible, keep one or
two leading slashes. -/
def normpath (p : String) : String :=
  if p = "" then "."
  else
    let initialSlashes : Nat :=
      if p.startsWith "/" then
        if p.startsWith "//" ∧ ¬ p.startsWith "///" then 2 else 1
      else 0
    let comps := p.splitOn "/"
    let newComps := comps.foldl (normpathStep initialSlashes) []
    let joined :=
      String.join (List.replicate initialSlashes "/") ++ String.intercalate "/" newComps
    if joined = "" then "." else joined

/-- `ConfigureAnalysisWindow._append_unique_paths`: append the normalized
paths to the current list, skipping any whose normalization is already
present (in the original list or added earlier in the same call). -/
def appendUniquePaths (cur : List String) (paths : List String) : List String :=
  paths.foldl (fun acc p =>
    let norm := normpath p
    if acc.contains norm then acc else acc ++ [norm]) cur

/-- `ConfigureAnalysisWindow.set_shared_search_paths`: clear the list
widget, then `_append_unique_paths`.  `get_shared_search_paths` reads the
item texts back, which in this model is the list itself. -/
def setSharedSearchPaths (paths : List String) : List String :=
  appendUniquePaths [] paths

/-- `ConfigureAnalysisWindow._on_remove_selected_paths`: remove each
selected item.  Selection is modelled as a Boolean mask over the rows;
rows whose mask entry is true are taken out. -/
def removeSelectedPaths (sel : List Bool) (l : List String) : List String :=
  (l.zip sel).filterMap (fun x => if x.2 then none else some x.1)

/-- A child entry of a directory, as seen by `Path.iterdir`:
whether it is a regular file, and its `Path.suffix`. -/
structure DirChild where
  isFile : Bool
  suffix : String
  deriving Repr, DecidableEq

/-- The outcome of enumerating a directory: a listing, or an exception
raised during enumeration (carried as a message). -/
abbrev DirListing := Except String (List DirChild)

/-- `ConfigureAnalysisWindow._dir_contains_libs`: true iff some child file
has an extension in `LIB_EXTS`; any exception while enumerating is
swallowed and yields false. -/
def dirContainsLibs (listing : DirListing) : Bool :=
  match listing with
  | .error _ => false
  | .ok children =>
      children.any (fun c => c.isFile && LIB_EXTS.contains c.suffix.toLower)

/-- A directory chosen in the add-directory dialog of
`_on_add_directory`: its path, whether it exists, its enumeration
outcome, and the answer the user gives should the "add anyway?" question be
asked. -/
structure DirChoice where
  path : String
  dirExists : Bool
  listing : DirListing
  userSaysYes : Bool
  deriving Repr

/-- The paths `_on_add_directory` decides to add: non-existing
directories are skipped; a directory without recognizable libraries is
added only if the user confirms; all others are added. -/
def addDirToAdd : List DirChoice → List String
  | [] => []
  | d :: rest =>
      if ¬ d.dirExists then addDirToAdd rest
      else if ¬ dirContainsLibs d.listing then
        if d.userSaysYes then d.path :: addDirToAdd rest else addDirToAdd rest
      else d.path :: addDirToAdd rest

/-- The directories for which `_on_add_directory` shows the
"No libraries detected … Add anyway?" confirmation dialog. -/
def addDirDialogs : List DirChoice → List String
  | [] => []
  | d :: rest =>
      if d.dirExists ∧ ¬ dirContainsLibs d.listing then d.path :: addDirDialogs rest
      else addDirDialogs rest

/-- `ConfigureAnalysisWindow._on_add_directory` acting on the search-path
list: append the accepted directories through `_append_unique_paths`. -/
def onAddDirectory (cur : List String) (dirs : List DirChoice) : List String :=
  appendUniquePaths cur (addDirToAdd dirs)

end BinLens

namespace BinLens

/-- One row of the logs table of `AnalysisLiveWidget`:
timestamp text, severity text, message. -/
structure LogRow where
  ts : String
  severity : String
  message : String
  deriving Repr, DecidableEq

/-- `AnalysisLiveWidget.append_log`: when a row cap is given and the table
already holds at least that many rows, drop row 0; then append the new
row (timestamp, "[SEVERITY]", message) at the end. -/
def appendLog (table : List LogRow) (severity message ts : String)
    (maxRows : Option Nat) : List LogRow :=
  let newRow : LogRow := { ts := ts, severity := "[" ++ severity.toUpper ++ "]",
                           message := message }
  match maxRows with
  | some m => if table.length ≥ m then table.drop 1 ++ [newRow] else table ++ [newRow]
  | none => table ++ [newRow]

/-- Look a name up in a name→count association list, defaulting to 0
(`store.get(name, 0)`). -/
def getCount (store : List (String × Int)) (name : String) : Int :=
  match store.lookup name with
  | some v => v
  | none => 0

/-- `store[name] = store.get(name, 0) + by`: update the first binding of
the name in place, or append a new binding. -/
def bumpStore : List (String × Int) → String → Int → List (String × Int)
  | [], name, k => [(name, k)]
  | (n, v) :: t, name, k =>
      if n = name then (n, v + k) :: t else (n, v) :: bumpStore t name k

/-- Sum of all counts in a store (`sum(store.values())`). -/
def sumStore (store : List (String × Int)) : Int :=
  (store.map Prod.snd).sum

/-- The state of `AnalysisLiveWidget` relevant to the category counters:
the two name→count stores, the names that have cards, and the two
section titles. -/
structure LiveState where
  categoriesDetected : List (String × Int)
  categoriesNotDetected : List (String × Int)
  cardsDet : List String
  cardsNot : List String
  detectedTitle : String
  notdetTitle : String
  deriving Repr

/-- `AnalysisLiveWidget.bump_category`: bump the chosen store, update or
create the card, and rewrite both section titles with the sums of their
stores. -/
def bumpCategory (s : LiveState) (name : String) (detected : Bool) (k : Int) : LiveState :=
  let det := if detected then bumpStore s.categoriesDetected name k else s.categoriesDetected
  let notdet := if detected then s.categoriesNotDetected
                else bumpStore s.categoriesNotDetected name k
  let cardsDet := if detected ∧ ¬ s.cardsDet.contains name
                  then s.cardsDet ++ [name] else s.cardsDet
  let cardsNot := if ¬ detected ∧ ¬ s.cardsNot.contains name
                  then s.cardsNot ++ [name] else s.cardsNot
  { categoriesDetected := det
    categoriesNotDetected := notdet
    cardsDet := cardsDet
    cardsNot := cardsNot
    detectedTitle := "Vulnerabilities Detected (" ++ toString (sumStore det) ++ ")"
    notdetTitle := "Vulnerabilities Not Detected (" ++ toString (sumStore notdet) ++ ")" }

/-- The state of the dashboard function list (`self.functions`):
its items and whether the widget is enabled. -/
structure FunctionListState where
  items : List String
  enabled : Bool
  deriving Repr, DecidableEq

/-- `BinLensDashboard.set_functions`: clear the list; an empty name list
yields the single placeholder item and a disabled widget, otherwise the
names are shown and the widget is enabled. -/
def setFunctions (names : List String) : FunctionListState :=
  if names.isEmpty then
    { items := ["No functions to display."], enabled := false }
  else
    { items := names, enabled := true }

end BinLens

namespace BinLens

/-- A value in the configuration dictionary of `get_config`. -/
inductive ConfigValue where
  | vStr (s : String)
  | vNat (n : Nat)
  | vRows (rs : List SelRow)
  | vStrList (l : List String)
  deriving Repr, DecidableEq

/-- The state of `ConfigureAnalysisWindow` read by `get_config`:
combo text, spin values, current tab text, entrypoint model, search-path
list and argument patterns. -/
structure ConfigWindowState where
  arch : String
  timeoutMinutes : Nat
  activeTab : String
  entryModel : List EntryRow
  pathsList : List String
  maxCliArgs : Nat
  argPatterns : List String
  deriving Repr

/-- `ConfigureAnalysisWindow.get_config`: the configuration dictionary,
one key/value pair per insertion, in source order. -/
def getConfig (w : ConfigWindowState) : List (String × ConfigValue) :=
  [ ("architecture", ConfigValue.vStr w.arch)
  , ("timeout_minutes", ConfigValue.vNat w.timeoutMinutes)
  , ("active_tab", ConfigValue.vStr w.activeTab)
  , ("entrypoints", ConfigValue.vRows (getSelectedEntrypoints w.entryModel))
  , ("lib_search_paths", ConfigValue.vStrList w.pathsList)
  , ("max_cli_args", ConfigValue.vNat w.maxCliArgs)
  , ("arg_patterns", ConfigValue.vStrList w.argPatterns) ]

/-- The six keys the specification names as the `get_config` shape. -/
def specConfigKeys : List String :=
  ["architecture", "timeout_minutes", "entrypoints", "lib_search_paths",
   "max_cli_args", "arg_patterns"]

/-- `set_shared_search_paths` as a state transformer on the window: the
previous list is cleared, so the new list depends on the argument only. -/
def setSharedSearchPathsState (w : ConfigWindowState) (ps : List String) : ConfigWindowState :=
  { w with pathsList := appendUniquePaths [] ps }

/-- Stated from the spec sentence of C7, to be compared with the code:
keep the first occurrence of each element, dropping later duplicates;
`seen` carries the elements already kept. -/
def specDedupKeepFirstAux : List String → List String → List String
  | _, [] => []
  | seen, x :: t =>
      if seen.contains x then specDedupKeepFirstAux seen t
      else x :: specDedupKeepFirstAux (seen ++ [x]) t

/-- Stated from the spec sentence of C7: first-occurrence
de-duplication of a list. -/
def specDedupKeepFirst (l : List String) : List String :=
  specDedupKeepFirstAux [] l

end BinLens

namespace BinLens

/-! ### Helper lemmas -/

theorem appendUniquePaths_cons (cur : List String) (p : String) (t : List String) :
    appendUniquePaths cur (p :: t) =
      appendUniquePaths
        (if cur.contains (normpath p) then cur else cur ++ [normpath p]) t := rfl

theorem appendUniquePaths_eq_spec (ps cur : List String) :
    appendUniquePaths cur ps = cur ++ specDedupKeepFirstAux cur (ps.map normpath) := by
  induction ps generalizing cur with
  | nil => simp [appendUniquePaths, specDedupKeepFirstAux]
  | cons p t ih =>
      rw [appendUniquePaths_cons]
      simp only [List.map_cons, specDedupKeepFirstAux]
      by_cases h : cur.contains (normpath p)
      · rw [if_pos h, if_pos h, ih]
      · rw [if_neg h, if_neg h, ih, List.append_assoc]
        rfl

theorem appendUniquePaths_nodup (ps cur : List String) (h : cur.Nodup) :
    (appendUniquePaths cur ps).Nodup := by
  induction ps generalizing cur with
  | nil => exact h
  | cons p t ih =>
      rw [appendUniquePaths_cons]
      by_cases hc : cur.contains (normpath p)
      · rw [if_pos hc]; exact ih cur h
      · rw [if_neg hc]
        refine ih _ ?_
        have hmem : normpath p ∉ cur := by
          simpa using hc
        simpa [List.nodup_append, h] using hmem

theorem removeSelectedPaths_sublist (sel : List Bool) (l : List String) :
    List.Sublist (removeSelectedPaths sel l) l := by
  induction l generalizing sel with
  | nil => simp [removeSelectedPaths]
  | cons x t ih =>
      cases sel with
      | nil => simp [removeSelectedPaths]
      | cons b bs =>
          cases b with
          | true =>
              simpa [removeSelectedPaths] using List.Sublist.cons x (ih bs)
          | false =>
              simpa [removeSelectedPaths] using List.Sublist.cons₂ x (ih bs)

theorem getCount_bumpStore (l : List (String × Int)) (name : String) (k : Int) :
    getCount (bumpStore l name k) name = getCount l name + k := by
  induction l with
  | nil => simp [bumpStore, getCount, List.lookup]
  | cons p t ih =>
      obtain ⟨n, v⟩ := p
      by_cases h : n = name
      · subst h; simp [bumpStore, getCount, List.lookup]
      · have hne : (name == n) = false := by
          simp [Ne.symm h]
        simp only [bumpStore, if_neg h, getCount, List.lookup, hne] at *
        exact ih

theorem map_checked_selectAll (b : Bool) (model : List EntryRow) :
    (selectAllEntrypoints b model).map EntryRow.checked
      = List.replicate model.length b := by
  induction model with
  | nil => rfl
  | cons r t ih => simpa [selectAllEntrypoints, List.replicate] using ih

theorem map_proj_selectAll (b : Bool) (model : List EntryRow) :
    (selectAllEntrypoints b model).map (fun r => (r.address, r.function, r.file))
      = model.map (fun r => (r.address, r.function, r.file)) := by
  simp [selectAllEntrypoints, List.map_map]

theorem map_eq_replicate_false {α : Type} (p : α → Bool) (l : List α)
    (h : ∀ x ∈ l, p x = false) :
    l.map p = List.replicate l.length false := by
  induction l with
  | nil => rfl
  | cons x t ih =>
      simp only [List.map_cons, List.length_cons, List.replicate]
      rw [h x (List.mem_cons_self x t), ih fun y hy => h y (List.mem_cons_of_mem x hy)]

/-! ### Claim theorems -/

/-- C2: populating the table with `set_entrypoints(rows)` and reading it
back with `get_selected_entrypoints()` yields exactly the rows whose
"selected" value is true, in their original order, projected to
address/function/file; unselected rows do not appear. -/
theorem set_then_get_selected_entrypoints (rows : List InputRow) :
    getSelectedEntrypoints (setEntrypoints rows) =
      (rows.filter (fun r => r.selected)).map
        (fun r => { address := r.address, function := r.function, file := r.file }) := by
  induction rows with
  | nil => rfl
  | cons r t ih =>
      cases h : r.selected <;>
        simp_all [setEntrypoints, getSelectedEntrypoints, List.filter_cons, h]

/-- C7: `set_shared_search_paths(ps)` followed by
`get_shared_search_paths()` yields the `os.path.normpath`-normalized
elements of ps with first-occurrence de-duplication, and calling the
setter twice with the same list leaves the same resulting list. -/
theorem set_shared_search_paths_normalizes_dedups (w : ConfigWindowState) (ps : List String) :
    setSharedSearchPaths ps = specDedupKeepFirst (ps.map normpath)
    ∧ setSharedSearchPathsState (setSharedSearchPathsState w ps) ps
        = setSharedSearchPathsState w ps := by
  constructor
  · simpa [specDedupKeepFirst, setSharedSearchPaths] using appendUniquePaths_eq_spec ps []
  · rfl

/-- C9: the search-path list never holds two equal entries: it is
duplicate-free after `set_shared_search_paths` (hence initially and after
a reset to defaults), and duplicate-freedom is preserved by
`_append_unique_paths`, by directory adding, and by removal of selected
paths. -/
theorem search_paths_nodup_invariant (cur ps : List String) (sel : List Bool)
    (dirs : List DirChoice) :
    (setSharedSearchPaths ps).Nodup
    ∧ (cur.Nodup → (appendUniquePaths cur ps).Nodup)
    ∧ (cur.Nodup → (onAddDirectory cur dirs).Nodup)
    ∧ (cur.Nodup → (removeSelectedPaths sel cur).Nodup) := by
  refine ⟨appendUniquePaths_nodup ps [] List.nodup_nil,
          fun h => appendUniquePaths_nodup ps cur h,
          fun h => appendUniquePaths_nodup (addDirToAdd dirs) cur h,
          fun h => List.Nodup.sublist (removeSelectedPaths_sublist sel cur) h⟩

/-- C9 witness: the invariant at concrete inputs. -/
theorem search_paths_nodup_invariant_witness :
    (setSharedSearchPaths ["/a//b", "/a/b/"]).Nodup
    ∧ (appendUniquePaths ["/x"] ["/a//b", "/a/b/"]).Nodup
    ∧ (onAddDirectory ["/x"] []).Nodup
    ∧ (removeSelectedPaths [true] ["/x"]).Nodup := by
  obtain ⟨h1, h2, h3, h4⟩ :=
    search_paths_nodup_invariant ["/x"] ["/a//b", "/a/b/"] [true] []
  exact ⟨h1, h2 (by decide), h3 (by decide), h4 (by decide)⟩

/-- C3: `select_all_entrypoints(b)` sets every checkbox to b and leaves
the data columns untouched; a header click on section 0 checks all rows
when at least one row is unchecked and otherwise unchecks all rows; a
header click on any other section changes nothing. -/
theorem header_toggle_and_select_all (model : List EntryRow) (b : Bool) (sec : Nat) :
    ((selectAllEntrypoints b model).map EntryRow.checked = List.replicate model.length b
      ∧ (selectAllEntrypoints b model).map (fun r => (r.address, r.function, r.file))
          = model.map (fun r => (r.address, r.function, r.file)))
    ∧ ((∃ r ∈ model, r.checked = false) →
        (onHeaderClicked 0 model).map EntryRow.checked = List.replicate model.length true)
    ∧ ((∀ r ∈ model, r.checked = true) →
        (onHeaderClicked 0 model).map EntryRow.checked = List.replicate model.length false)
    ∧ (sec ≠ 0 → onHeaderClicked sec model = model) := by
  refine ⟨⟨map_checked_selectAll b model, map_proj_selectAll b model⟩, ?_, ?_, ?_⟩
  · rintro ⟨r, hr, hc⟩
    have hany : (model.any fun r => r.checked != true) = true := by
      rw [List.any_eq_true]
      exact ⟨r, hr, by simp [hc]⟩
    unfold onHeaderClicked
    rw [if_neg (by simp)]
    rw [hany]
    exact map_checked_selectAll true model
  · intro h
    have hany : (model.any fun r => r.checked != true) = false := by
      rw [List.any_eq_false]
      intro r hr
      simp [h r hr]
    unfold onHeaderClicked
    rw [if_neg (by simp)]
    rw [hany]
    exact map_checked_selectAll false model
  · intro h
    unfold onHeaderClicked
    rw [if_pos h]

/-- C3 witness: the four behaviors at a concrete two-row table. -/
theorem header_toggle_and_select_all_witness :
    ((selectAllEntrypoints true
        [{ checked := false, address := "0x401000", function := "main", file := "bin" },
         { checked := true, address := "0x402000", function := "helper", file := "bin" }]).map
        EntryRow.checked = List.replicate 2 true
      ∧ (selectAllEntrypoints true
        [{ checked := false, address := "0x401000", function := "main", file := "bin" },
         { checked := true, address := "0x402000", function := "helper", file := "bin" }]).map
          (fun r => (r.address, r.function, r.file))
        = [("0x401000", "main", "bin"), ("0x402000", "helper", "bin")])
    ∧ (onHeaderClicked 0
        [{ checked := false, address := "0x401000", function := "main", file := "bin" },
         { checked := true, address := "0x402000", function := "helper", file := "bin" }]).map
        EntryRow.checked = List.replicate 2 true
    ∧ (onHeaderClicked 0
        [{ checked := true, address := "0x402000", function := "helper", file := "bin" }]).map
        EntryRow.checked = List.replicate 1 false
    ∧ onHeaderClicked 3
        [{ checked := false, address := "0x401000", function := "main", file := "bin" },
         { checked := true, address := "0x402000", function := "helper", file := "bin" }]
      = [{ checked := false, address := "0x401000", function := "main", file := "bin" },
         { checked := true, address := "0x402000", function := "helper", file := "bin" }] := by
  obtain ⟨h1, h2, _, h4⟩ := header_toggle_and_select_all
    [{ checked := false, address := "0x401000", function := "main", file := "bin" },
     { checked := true, address := "0x402000", function := "helper", file := "bin" }] true 3
  obtain ⟨_, _, h3, _⟩ := header_toggle_and_select_all
    [{ checked := true, address := "0x402000", function := "helper", file := "bin" }] true 3
  refine ⟨⟨h1.1, by rw [h1.2]; rfl⟩, h2 ?_, h3 ?_, h4 (by decide)⟩
  · exact ⟨_, List.mem_cons_self _ _, rfl⟩
  · intro r hr
    simp only [List.mem_singleton] at hr
    rw [hr]

/-- C4: after `select_default_entrypoints()`, if some function name is a
default name then exactly those rows are checked; if none matched and the
table is non-empty exactly row 0 is checked; an empty table stays empty;
data columns are never touched. -/
theorem select_default_entrypoints_spec (model : List EntryRow) :
    (model.any (fun r => defaultNames.contains r.function) = true →
      (selectDefaultEntrypoints model).map EntryRow.checked
        = model.map (fun r => defaultNames.contains r.function))
    ∧ (model.any (fun r => defaultNames.contains r.function) = false → model ≠ [] →
      (selectDefaultEntrypoints model).map EntryRow.checked
        = true :: List.replicate (model.length - 1) false)
    ∧ (model = [] → selectDefaultEntrypoints model = [])
    ∧ (selectDefaultEntrypoints model).map (fun r => (r.address, r.function, r.file))
        = model.map (fun r => (r.address, r.function, r.file)) := by
  refine ⟨?_, ?_, ?_, ?_⟩
  · intro h
    unfold selectDefaultEntrypoints
    rw [if_pos h, List.map_map]
    rfl
  · intro h hne
    have hall : ∀ r ∈ model, defaultNames.contains r.function = false := by
      intro r hr
      simpa using List.any_eq_false.mp h r hr
    unfold selectDefaultEntrypoints
    rw [if_neg (by rw [h]; exact Bool.false_ne_true)]
    cases model with
    | nil => exact absurd rfl hne
    | cons r t =>
        have htail : List.map (fun x : EntryRow => defaultNames.contains x.function) t
            = List.replicate t.length false :=
          map_eq_replicate_false _ t (fun x hx => hall x (List.mem_cons_of_mem r hx))
        simp only [List.map_cons, checkFirstRow, List.map_map, Function.comp,
          List.length_cons, Nat.add_sub_cancel]
        exact congrArg (List.cons true) htail
  · intro h
    rw [h]
    rfl
  · by_cases h : model.any (fun r => defaultNames.contains r.function) = true
    · unfold selectDefaultEntrypoints
      rw [if_pos h, List.map_map]
      rfl
    · unfold selectDefaultEntrypoints
      rw [if_neg h]
      cases model with
      | nil => rfl
      | cons r t =>
          simp only [List.map_cons, checkFirstRow, List.map_map]
          rfl

/-- C4 witness: the three behaviors at concrete tables. -/
theorem select_default_entrypoints_spec_witness :
    (selectDefaultEntrypoints
        [{ checked := false, address := "0x1", function := "main", file := "bin" },
         { checked := true, address := "0x2", function := "helper", file := "bin" }]).map
      EntryRow.checked = [true, false]
    ∧ (selectDefaultEntrypoints
        [{ checked := false, address := "0x1", function := "foo", file := "bin" },
         { checked := true, address := "0x2", function := "bar", file := "bin" }]).map
      EntryRow.checked = true :: List.replicate 1 false
    ∧ selectDefaultEntrypoints [] = [] := by
  obtain ⟨h1, _, _, _⟩ := select_default_entrypoints_spec
    [{ checked := false, address := "0x1", function := "main", file := "bin" },
     { checked := true, address := "0x2", function := "helper", file := "bin" }]
  obtain ⟨_, h2, _, _⟩ := select_default_entrypoints_spec
    [{ checked := false, address := "0x1", function := "foo", file := "bin" },
     { checked := true, address := "0x2", function := "bar", file := "bin" }]
  obtain ⟨_, _, h3, _⟩ := select_default_entrypoints_spec ([] : List EntryRow)
  refine ⟨?_, ?_, h3 rfl⟩
  · rw [h1 (by decide)]
    decide
  · exact h2 (by decide) (by decide)

/-- C5: `bump_category(name, detected, by)` raises the count of the name in
the matching store by exactly the given amount (an absent name counts as
0), leaves the other store unchanged, and rewrites each section title
with the sum of all counts in its store. -/
theorem bump_category_spec (s : LiveState) (name : String) (detected : Bool) (k : Int) :
    (detected = true →
      getCount (bumpCategory s name detected k).categoriesDetected name
          = getCount s.categoriesDetected name + k
      ∧ (bumpCategory s name detected k).categoriesNotDetected = s.categoriesNotDetected)
    ∧ (detected = false →
      getCount (bumpCategory s name detected k).categoriesNotDetected name
          = getCount s.categoriesNotDetected name + k
      ∧ (bumpCategory s name detected k).categoriesDetected = s.categoriesDetected)
    ∧ (bumpCategory s name detected k).detectedTitle
        = "Vulnerabilities Detected ("
          ++ toString (sumStore (bumpCategory s name detected k).categoriesDetected) ++ ")"
    ∧ (bumpCategory s name detected k).notdetTitle
        = "Vulnerabilities Not Detected ("
          ++ toString (sumStore (bumpCategory s name detected k).categoriesNotDetected)
          ++ ")" := by
  cases detected <;> simp [bumpCategory, getCount_bumpStore]

/-- C5 witness: bumping an existing detected category and a fresh
not-detected category at a concrete widget state. -/
theorem bump_category_spec_witness :
    (getCount (bumpCategory
        { categoriesDetected := [("CWE-121", 2)], categoriesNotDetected := [("CWE-787", 1)],
          cardsDet := ["CWE-121"], cardsNot := ["CWE-787"],
          detectedTitle := "Vulnerabilities Detected (2)",
          notdetTitle := "Vulnerabilities Not Detected (1)" }
        "CWE-121" true 3).categoriesDetected "CWE-121"
      = getCount [("CWE-121", 2)] "CWE-121" + 3
     ∧ (bumpCategory
        { categoriesDetected := [("CWE-121", 2)], categoriesNotDetected := [("CWE-787", 1)],
          cardsDet := ["CWE-121"], cardsNot := ["CWE-787"],
          detectedTitle := "Vulnerabilities Detected (2)",
          notdetTitle := "Vulnerabilities Not Detected (1)" }
        "CWE-121" true 3).categoriesNotDetected = [("CWE-787", 1)])
    ∧ (getCount (bumpCategory
        { categoriesDetected := [("CWE-121", 2)], categoriesNotDetected := [("CWE-787", 1)],
          cardsDet := ["CWE-121"], cardsNot := ["CWE-787"],
          detectedTitle := "Vulnerabilities Detected (2)",
          notdetTitle := "Vulnerabilities Not Detected (1)" }
        "CWE-416" false 1).categoriesNotDetected "CWE-416"
      = getCount [("CWE-787", 1)] "CWE-416" + 1
     ∧ (bumpCategory
        { categoriesDetected := [("CWE-121", 2)], categoriesNotDetected := [("CWE-787", 1)],
          cardsDet := ["CWE-121"], cardsNot := ["CWE-787"],
          detectedTitle := "Vulnerabilities Detected (2)",
          notdetTitle := "Vulnerabilities Not Detected (1)" }
        "CWE-416" false 1).categoriesDetected = [("CWE-121", 2)]) :=
  ⟨(bump_category_spec
      { categoriesDetected := [("CWE-121", 2)], categoriesNotDetected := [("CWE-787", 1)],
        cardsDet := ["CWE-121"], cardsNot := ["CWE-787"],
        detectedTitle := "Vulnerabilities Detected (2)",
        notdetTitle := "Vulnerabilities Not Detected (1)" }
      "CWE-121" true 3).1 rfl,
   (bump_category_spec
      { categoriesDetected := [("CWE-121", 2)], categoriesNotDetected := [("CWE-787", 1)],
        cardsDet := ["CWE-121"], cardsNot := ["CWE-787"],
        detectedTitle := "Vulnerabilities Detected (2)",
        notdetTitle := "Vulnerabilities Not Detected (1)" }
      "CWE-416" false 1).2.1 rfl⟩

/-- C6: an exception while enumerating a directory is swallowed and makes
`_dir_contains_libs` answer false, and the only confirmation dialog of
directory adding is asked exactly for the existing directories in which
no file with a library extension was found. -/
theorem dir_errors_swallowed (e : String) (dirs : List DirChoice) :
    dirContainsLibs (Except.error e) = false
    ∧ addDirDialogs dirs
        = (dirs.filter fun d => d.dirExists && ! dirContainsLibs d.listing).map
            (fun d => d.path) := by
  refine ⟨rfl, ?_⟩
  induction dirs with
  | nil => rfl
  | cons d t ih =>
      by_cases h1 : d.dirExists = true <;> by_cases h2 : dirContainsLibs d.listing = true <;>
        simp_all [addDirDialogs, List.filter_cons, h1, h2]

/-- C8: with a row cap m ≥ 1 and at most m rows present, the logs table
still has at most m rows after `append_log`; at exactly m rows the oldest
row is dropped and the new row lands at the end. -/
theorem append_log_bounded (table : List LogRow) (sev msg ts : String) (m : Nat)
    (hm : 1 ≤ m) (hlen : table.length ≤ m) :
    (appendLog table sev msg ts (some m)).length ≤ m
    ∧ (table.length = m →
        appendLog table sev msg ts (some m)
          = table.drop 1
            ++ [{ ts := ts, severity := "[" ++ sev.toUpper ++ "]", message := msg }]) := by
  constructor
  · simp only [appendLog]
    split
    · next h =>
        simp only [List.length_append, List.length_drop, List.length_cons, List.length_nil]
        omega
    · next h =>
        simp only [List.length_append, List.length_cons, List.length_nil]
        omega
  · intro he
    simp only [appendLog]
    rw [if_pos (by omega : table.length ≥ m)]

/-- C8 witness: a full one-row table with cap 1 stays at one row, the old
row replaced by the new one. -/
theorem append_log_bounded_witness :
    (1 ≤ 1
      ∧ ([{ ts := "09:00:00", severity := "[INFO]", message := "started" }]
          : List LogRow).length ≤ 1)
    ∧ (appendLog [{ ts := "09:00:00", severity := "[INFO]", message := "started" }]
        "warn" "late" "09:00:01" (some 1)).length ≤ 1
    ∧ appendLog [{ ts := "09:00:00", severity := "[INFO]", message := "started" }]
        "warn" "late" "09:00:01" (some 1)
      = ([{ ts := "09:00:00", severity := "[INFO]", message := "started" }] : List LogRow).drop 1
        ++ [{ ts := "09:00:01", severity := "[" ++ "warn".toUpper ++ "]",
              message := "late" }] := by
  have h := append_log_bounded
    [{ ts := "09:00:00", severity := "[INFO]", message := "started" }]
    "warn" "late" "09:00:01" 1 (by decide) (by decide)
  exact ⟨⟨by decide, by decide⟩, h.1, h.2 rfl⟩

/-- C10: `set_functions([])` shows the single placeholder entry and
disables the widget; a non-empty list is shown as given and the widget is
enabled. -/
theorem set_functions_empty_placeholder (names : List String) :
    (names = [] →
      setFunctions names = { items := ["No functions to display."], enabled := false })
    ∧ (names ≠ [] →
      (setFunctions names).enabled = true ∧ (setFunctions names).items = names) := by
  cases names <;> simp [setFunctions]

/-- C10 witness: the two branches at concrete inputs. -/
theorem set_functions_empty_placeholder_witness :
    setFunctions [] = { items := ["No functions to display."], enabled := false }
    ∧ ((setFunctions ["main"]).enabled = true ∧ (setFunctions ["main"]).items = ["main"]) :=
  ⟨(set_functions_empty_placeholder []).1 rfl,
   (set_functions_empty_placeholder ["main"]).2 (by simp)⟩

/-- C1 counterexample: at a concrete window state, `get_config()` also
carries the key "active_tab", which is not one of the six items the spec
names, so the dictionary does not consist of exactly those six. -/
theorem get_config_has_seventh_key :
    "active_tab" ∈ (getConfig
        { arch := "ARM", timeoutMinutes := 30, activeTab := "General",
          entryModel := [], pathsList := [], maxCliArgs := 5,
          argPatterns := [] }).map Prod.fst
    ∧ "active_tab" ∉ specConfigKeys
    ∧ ((getConfig
        { arch := "ARM", timeoutMinutes := 30, activeTab := "General",
          entryModel := [], pathsList := [], maxCliArgs := 5,
          argPatterns := [] }).map Prod.fst).length = 7
    ∧ specConfigKeys.length = 6 := by
  refine ⟨?_, ?_, rfl, rfl⟩
  · simp [getConfig]
  · simp [specConfigKeys]

/-- C1 amended: `get_config()` returns a dictionary with exactly seven
keys — the six the spec names plus "active_tab" — each bound to the
corresponding configured datum. -/
theorem get_config_shape (w : ConfigWindowState) :
    (getConfig w).map Prod.fst
      = ["architecture", "timeout_minutes", "active_tab", "entrypoints",
         "lib_search_paths", "max_cli_args", "arg_patterns"]
    ∧ (getConfig w).lookup "architecture" = some (ConfigValue.vStr w.arch)
    ∧ (getConfig w).lookup "timeout_minutes" = some (ConfigValue.vNat w.timeoutMinutes)
    ∧ (getConfig w).lookup "active_tab" = some (ConfigValue.vStr w.activeTab)
    ∧ (getConfig w).lookup "entrypoints"
        = some (ConfigValue.vRows (getSelectedEntrypoints w.entryModel))
    ∧ (getConfig w).lookup "lib_search_paths" = some (ConfigValue.vStrList w.pathsList)
    ∧ (getConfig w).lookup "max_cli_args" = some (ConfigValue.vNat w.maxCliArgs)
    ∧ (getConfig w).lookup "arg_patterns" = some (ConfigValue.vStrList w.argPatterns) := by
  refine ⟨rfl, ?_, ?_, ?_, ?_, ?_, ?_, ?_⟩ <;> rfl

end BinLens


